import Mathlib

/-
Verification development for the QuizMaster quiz-taking and grading flow,
a shallow embedding of src/components/student/quiz-interface.tsx.
Line numbers in comments refer to that file.
-/

namespace QuizMaster

/-- Option row of a multiple-choice question, matching the nested
`question_options` interface (quiz-interface.tsx lines 29-33). -/
structure QuestionOption where
  id : String
  option_text : String
  order_index : Int
  deriving DecidableEq, Repr

/-- Quiz question as fetched for the quiz interface (lines 22-34).
`points` is declared `number` in the TypeScript interface, but every use
is guarded by `q.points || 1`, so it is modelled as possibly unset. -/
structure Question where
  id : String
  question_text : String
  question_type : String
  order_index : Int
  points : Option Nat
  correct_answer : String
  question_options : List QuestionOption
  deriving DecidableEq, Repr

/-- Submitted answer value: the `Answer` map stores `string | string[]`
values (lines 45-47). -/
inductive StudentAnswer where
  | str (s : String)
  | list (l : List String)
  deriving DecidableEq, Repr

/-- In-session answer map; `none` models a question with no stored answer
(JavaScript `undefined`). -/
def AnswersMap : Type := String → Option StudentAnswer

/-- Models `q.points || 1` (lines 120, 131, 139, 211): JavaScript
`undefined`, `null` and `0` are all falsy and fall back to 1. -/
def pointsOf (q : Question) : Nat :=
  match q.points with
  | none => 1
  | some n => if n = 0 then 1 else n

/-- Models JavaScript `String.prototype.toLowerCase` (ASCII case map). -/
def jsToLowerCase (s : String) : String := String.mk (s.data.map Char.toLower)

/-- Models JavaScript `String.prototype.trim`: drop leading and trailing
whitespace characters. -/
def jsTrim (s : String) : String :=
  String.mk (((s.data.dropWhile Char.isWhitespace).reverse.dropWhile
    Char.isWhitespace).reverse)

/-- Models `value.toLowerCase().trim()` as applied on line 176. -/
def jsNormalize (s : String) : String := jsTrim (jsToLowerCase s)

/-- Emptiness test on line 168:
`!answer || (Array.isArray(answer) && answer.length === 0)`.
A string is falsy exactly when it is empty; an array is always truthy and
the empty array is caught by the explicit length test. -/
def isEmptyAnswer : StudentAnswer → Bool
  | .str s => s == ""
  | .list l => l.isEmpty

/-- Models JavaScript strict equality `answer === q.correct_answer`
between a `string | string[]` value and a string (lines 171 and 173): an
array value is never strictly equal to a string. -/
def jsStrictEqStr : StudentAnswer → String → Bool
  | .str s, t => s == t
  | .list _, _ => false

/-- Embedding of `gradeAnswer` (lines 167-178).  The short-answer branch
calls `.toLowerCase()` on the submitted value, which throws a `TypeError`
when that value is an array, hence the `Except` result. -/
def gradeAnswer (q : Question) (answer : StudentAnswer) : Except String Bool :=
  if isEmptyAnswer answer then .ok false
  else if q.question_type = "multiple_choice" then
    .ok (jsStrictEqStr answer q.correct_answer)
  else if q.question_type = "true_false" then
    .ok (jsStrictEqStr answer q.correct_answer)
  else
    match answer with
    | .str s => .ok (jsNormalize s == jsNormalize q.correct_answer)
    | .list _ => .error "TypeError: answer.toLowerCase is not a function"

/-- Models `answers[q.id] || ""` (line 125): a missing entry grades as the
empty string.  A stored empty string is falsy and is replaced by the empty
string as well, which is the identity. -/
def effectiveAnswer (answers : AnswersMap) (qid : String) : StudentAnswer :=
  (answers qid).getD (.str "")

/-- Models
`Array.isArray(studentAnswer) ? studentAnswer.join(",") : studentAnswer`
(line 137). -/
def answerText : StudentAnswer → String
  | .str s => s
  | .list l => String.intercalate "," l

/-- One row of the `student_answers` insert (lines 134-140). -/
structure AnswerRecord where
  attempt_id : String
  question_id : String
  student_answer : String
  is_correct : Bool
  points_earned : Nat
  deriving DecidableEq, Repr

/-- Row inserted into `student_answers` for question `q` when grading
judged the submission `isCorrect` (lines 134-140, in particular
`points_earned: isCorrect ? q.points || 1 : 0`). -/
def mkAnswerRecord (attemptId : String) (q : Question) (a : StudentAnswer)
    (isCorrect : Bool) : AnswerRecord :=
  { attempt_id := attemptId, question_id := q.id, student_answer := answerText a,
    is_correct := isCorrect,
    points_earned := if isCorrect then pointsOf q else 0 }

/-- External store writes issued by `handleSubmitQuiz`, in order. -/
inductive WriteOp where
  | attemptInsert (quiz_id student_id status : String)
  | answerInsert (row : AnswerRecord)
  | scoreUpdate (score total_points : Nat)
  deriving DecidableEq, Repr

/-- Outcome oracle for the external store.  The code reads only the result
of the `quiz_attempts` insert (line 114 checks it); the results of the
`student_answers` inserts (lines 134-140) and of the score update (lines
146-154) are never inspected, so `answerInsertOk` and `updateOk` exist in
the model but cannot influence the embedded function. -/
structure StoreOracle where
  attemptId : String
  attemptInsertOk : Bool
  answerInsertOk : Nat → Bool
  updateOk : Bool

/-- Grading and insert loop (lines 124-141): accumulates the inserted rows
and `totalScore`; a grading exception aborts the loop, keeping the rows
inserted so far. -/
def submitLoopAux (answers : AnswersMap) (attemptId : String) :
    List Question → List AnswerRecord → Nat →
      List AnswerRecord × Nat × Option String
  | [], recs, score => (recs, score, none)
  | q :: rest, recs, score =>
    match gradeAnswer q (effectiveAnswer answers q.id) with
    | .error e => (recs, score, some e)
    | .ok c =>
      submitLoopAux answers attemptId rest
        (recs ++ [mkAnswerRecord attemptId q (effectiveAnswer answers q.id) c])
        (score + if c then pointsOf q else 0)

/-- Observable outcome of one `handleSubmitQuiz` call: the ordered list of
store writes, the error logged by the `catch` block (line 161) if any, and
whether the success navigation (line 159) was reached. -/
structure SubmitResult where
  writes : List WriteOp
  loggedError : Option String
  navigated : Bool
  deriving DecidableEq, Repr

/-- Embedding of `handleSubmitQuiz` (lines 98-165).  The attempt insert
result is checked (`if (!attempt) throw ...`, line 114) and the thrown
error is caught by the `catch` block and logged, not rethrown; the
per-answer inserts and the score update are awaited but their results are
discarded, so their failures neither stop the write sequence nor surface
anywhere. -/
def handleSubmitQuiz (store : StoreOracle) (quizId userId : String)
    (questions : List Question) (answers : AnswersMap) : SubmitResult :=
  if store.attemptInsertOk then
    let totalPoints := questions.foldl (fun sum q => sum + pointsOf q) 0
    match submitLoopAux answers store.attemptId questions [] 0 with
    | (recs, score, none) =>
      { writes := WriteOp.attemptInsert quizId userId "completed" ::
          (recs.map WriteOp.answerInsert ++
            [WriteOp.scoreUpdate score totalPoints]),
        loggedError := none, navigated := true }
    | (recs, _, some e) =>
      { writes := WriteOp.attemptInsert quizId userId "completed" ::
          recs.map WriteOp.answerInsert,
        loggedError := some e, navigated := false }
  else
    { writes := [WriteOp.attemptInsert quizId userId "completed"],
      loggedError := some "Failed to create attempt", navigated := false }

/-- Projection selecting the `student_answers` rows of a write. -/
def writeAnswerRow : WriteOp → Option AnswerRecord
  | .answerInsert row => some row
  | _ => none

/-- Projection selecting the `(score, total_points)` pair of a write. -/
def writeScorePair : WriteOp → Option (Nat × Nat)
  | .scoreUpdate s t => some (s, t)
  | _ => none

/-- Answer rows among the writes of a submission result. -/
def answerRecordsOf (r : SubmitResult) : List AnswerRecord :=
  r.writes.filterMap writeAnswerRow

/-- Score updates among the writes of a submission result. -/
def scoreUpdatesOf (r : SubmitResult) : List (Nat × Nat) :=
  r.writes.filterMap writeScorePair

/-- Total version of the grader, used to describe runs on which
`gradeAnswer` did not throw. -/
def gradeAnswerOk (q : Question) (a : StudentAnswer) : Bool :=
  match gradeAnswer q a with
  | .ok b => b
  | .error _ => false

/-- Row the submission loop inserts for question `q`. -/
def recordFor (answers : AnswersMap) (attemptId : String) (q : Question) :
    AnswerRecord :=
  mkAnswerRecord attemptId q (effectiveAnswer answers q.id)
    (gradeAnswerOk q (effectiveAnswer answers q.id))

/-- Points the loop adds to `totalScore` for question `q` (line 131). -/
def earnedPoints (answers : AnswersMap) (q : Question) : Nat :=
  if gradeAnswerOk q (effectiveAnswer answers q.id) then pointsOf q else 0

/-- Multiple-choice option value as submitted by the radio group: line 231
renders `RadioGroupItem` with `value={option.id}`, so the submitted token
is the option identifier, never the display text. -/
def optionRadioValue (o : QuestionOption) : String := o.id

/-- Previous-button handler (line 297):
`setCurrentQuestion(Math.max(0, currentQuestion - 1))`. -/
def prevQuestionClick (currentQuestion : Int) : Int :=
  max 0 (currentQuestion - 1)

/-- Next-button handler (line 305):
`setCurrentQuestion(Math.min(questions.length - 1, currentQuestion + 1))`. -/
def nextQuestionClick (questionCount currentQuestion : Int) : Int :=
  min (questionCount - 1) (currentQuestion + 1)

/-- Client state of one quiz-taking session relevant to submission:
remaining seconds, the `isSubmitting` flag, and the number of
`quiz_attempts` rows this session has inserted. -/
structure SessionState where
  timeLeft : Int
  isSubmitting : Bool
  attemptRows : Nat
  deriving DecidableEq, Repr

/-- Events that can reach `handleSubmitQuiz`: a one-second timer tick, and
a click on the Submit action of the confirmation dialog (line 332), which
is never disabled. -/
inductive SessionEvent where
  | tick
  | dialogSubmitClick
  deriving DecidableEq, Repr

/-- One completed run of `handleSubmitQuiz` (lines 98-165) with an
available store, seen from the session state: the function sets
`isSubmitting` to true on entry, inserts one `quiz_attempts` row
unconditionally (no statement in the function reads `isSubmitting`), and
the `finally` block (line 163) resets `isSubmitting` to false. -/
def sessionSubmit (s : SessionState) : SessionState :=
  { s with isSubmitting := false, attemptRows := s.attemptRows + 1 }

/-- Session step relation.  The timer effect (lines 61-72) re-runs when
`timeLeft` changes: while `timeLeft` is positive an interval decrements it
once per second, and when the new value reaches zero the effect calls
`handleSubmitQuiz` and schedules no further interval, so a tick with
non-positive `timeLeft` does nothing.  The dialog Submit action invokes
`handleSubmitQuiz` directly. -/
def sessionStep (s : SessionState) : SessionEvent → SessionState
  | .tick =>
    if s.timeLeft ≤ 0 then s
    else
      let s2 := { s with timeLeft := s.timeLeft - 1 }
      if s2.timeLeft ≤ 0 then sessionSubmit s2 else s2
  | .dialogSubmitClick => sessionSubmit s

/-- Fold a list of events through the session step relation. -/
def runSession (s0 : SessionState) (events : List SessionEvent) : SessionState :=
  events.foldl sessionStep s0

theorem foldl_points_eq (qs : List Question) (n : Nat) :
    qs.foldl (fun sum q => sum + pointsOf q) n = n + (qs.map pointsOf).sum := by
  induction qs generalizing n with
  | nil => simp
  | cons q rest ih => simp [List.foldl_cons, List.map_cons, List.sum_cons, ih]; omega

theorem submitLoopAux_ok_eq (answers : AnswersMap) (attemptId : String) :
    ∀ (qs : List Question) (recs0 : List AnswerRecord) (s0 : Nat)
      (recs : List AnswerRecord) (s : Nat),
      submitLoopAux answers attemptId qs recs0 s0 = (recs, s, none) →
      recs = recs0 ++ qs.map (recordFor answers attemptId) ∧
        s = s0 + (qs.map (earnedPoints answers)).sum := by
  intro qs
  induction qs with
  | nil =>
    intro recs0 s0 recs s h
    simp only [submitLoopAux, Prod.mk.injEq] at h
    simp [h.1, h.2.1]
  | cons q rest ih =>
    intro recs0 s0 recs s h
    simp only [submitLoopAux] at h
    cases hg : gradeAnswer q (effectiveAnswer answers q.id) with
    | error e => rw [hg] at h; simp at h
    | ok c =>
      rw [hg] at h
      obtain ⟨h1, h2⟩ := ih _ _ _ _ h
      have hc : gradeAnswerOk q (effectiveAnswer answers q.id) = c := by
        simp [gradeAnswerOk, hg]
      constructor
      · rw [h1]
        simp [recordFor, hc, List.append_assoc]
      · rw [h2]
        simp [earnedPoints, hc, List.sum_cons]
        omega

theorem filterMap_writeAnswerRow_map (recs : List AnswerRecord) :
    (recs.map WriteOp.answerInsert).filterMap writeAnswerRow = recs := by
  induction recs with
  | nil => rfl
  | cons r rest ih => simp [writeAnswerRow, ih]

theorem filterMap_writeScorePair_map (recs : List AnswerRecord) :
    (recs.map WriteOp.answerInsert).filterMap writeScorePair = [] := by
  induction recs with
  | nil => rfl
  | cons r rest ih => simp [writeScorePair, ih]

theorem recordFor_points_earned (answers : AnswersMap) (attemptId : String)
    (q : Question) :
    (recordFor answers attemptId q).points_earned = earnedPoints answers q := rfl

theorem filterMap_none_fn {α β : Type} (l : List α) :
    l.filterMap (fun _ => (none : Option β)) = [] := by
  induction l with
  | nil => rfl
  | cons a rest ih => simp [ih]

theorem filterMap_some_fn {α β : Type} (f : α → β) (l : List α) :
    l.filterMap (fun a => some (f a)) = l.map f := by
  induction l with
  | nil => rfl
  | cons a rest ih => simp [ih]

theorem handleSubmitQuiz_ok_eq (store : StoreOracle) (quizId userId : String)
    (questions : List Question) (answers : AnswersMap)
    (h : (handleSubmitQuiz store quizId userId questions answers).loggedError
          = none) :
    handleSubmitQuiz store quizId userId questions answers =
      { writes := WriteOp.attemptInsert quizId userId "completed" ::
          ((questions.map (recordFor answers store.attemptId)).map
              WriteOp.answerInsert ++
            [WriteOp.scoreUpdate ((questions.map (earnedPoints answers)).sum)
              ((questions.map pointsOf).sum)]),
        loggedError := none, navigated := true } := by
  by_cases hk : store.attemptInsertOk
  · unfold handleSubmitQuiz at h ⊢
    rw [if_pos hk] at h ⊢
    rcases heq : submitLoopAux answers store.attemptId questions [] 0 with
      ⟨recs, score, err⟩
    cases err with
    | some e => rw [heq] at h; simp at h
    | none =>
      obtain ⟨h1, h2⟩ := submitLoopAux_ok_eq answers store.attemptId
        questions [] 0 recs score heq
      simp only [List.nil_append] at h1
      simp only [Nat.zero_add] at h2
      subst h1
      subst h2
      simp [foldl_points_eq]
  · unfold handleSubmitQuiz at h
    rw [if_neg hk] at h
    simp at h

theorem sum_earned_le_sum_points (answers : AnswersMap) (qs : List Question) :
    (qs.map (earnedPoints answers)).sum ≤ (qs.map pointsOf).sum := by
  induction qs with
  | nil => simp
  | cons q rest ih =>
    simp only [List.map_cons, List.sum_cons]
    have hq : earnedPoints answers q ≤ pointsOf q := by
      unfold earnedPoints; split <;> omega
    omega

/-- Malformed multiple-choice question: no options at all, or a
correct-answer token matching no option identifier. -/
def malformedChoice (q : Question) : Prop :=
  q.question_options = [] ∨ ∀ o ∈ q.question_options, o.id ≠ q.correct_answer

/-- C4: for every question of any type, the grader on an empty string, an
empty list, or a missing answer returns incorrect, and the answer row the
submission loop builds for such a question carries a false correctness
flag and zero points earned. -/
theorem grader_empty_incorrect (q : Question) (answers : AnswersMap)
    (aid : String) :
    gradeAnswer q (.str "") = .ok false ∧
    gradeAnswer q (.list []) = .ok false ∧
    ((answers q.id = none ∨ answers q.id = some (.str "") ∨
        answers q.id = some (.list [])) →
      (recordFor answers aid q).is_correct = false ∧
      (recordFor answers aid q).points_earned = 0) := by
  refine ⟨by simp [gradeAnswer, isEmptyAnswer],
    by simp [gradeAnswer, isEmptyAnswer], ?_⟩
  intro hmiss
  have hgr : ∀ a : StudentAnswer, isEmptyAnswer a = true →
      gradeAnswerOk q a = false := by
    intro a ha
    simp [gradeAnswerOk, gradeAnswer, ha]
  rcases hmiss with hm | hm | hm <;>
    simp [recordFor, mkAnswerRecord, effectiveAnswer, hm, hgr, isEmptyAnswer]

/-- Instantiation of the empty-answer theorem at a concrete question with
no stored answer. -/
theorem grader_empty_incorrect_witness :
    (recordFor (fun _ => none) "att-1"
        ⟨"q1", "2+2=4", "true_false", 0, none, "true", []⟩).is_correct = false ∧
    (recordFor (fun _ => none) "att-1"
        ⟨"q1", "2+2=4", "true_false", 0, none, "true", []⟩).points_earned = 0 :=
  (grader_empty_incorrect ⟨"q1", "2+2=4", "true_false", 0, none, "true", []⟩
    (fun _ => none) "att-1").2.2 (Or.inl rfl)

/-- C5: for every short-answer question and nonempty string submission,
grading succeeds and judges the submission correct exactly when the
lowercased, trimmed submission equals the lowercased, trimmed
correct-answer text. -/
theorem grader_short_answer_case_insensitive (q : Question) (s : String)
    (hty : q.question_type = "short_answer") (hne : s ≠ "") :
    gradeAnswer q (.str s) =
      .ok (jsNormalize s == jsNormalize q.correct_answer) := by
  simp [gradeAnswer, isEmptyAnswer, hty, hne]

/-- Instantiation: grading the submission with surrounding blanks and
different case against the correct answer Paris is judged correct. -/
theorem grader_short_answer_case_insensitive_witness :
    gradeAnswer ⟨"q1", "Capital of France", "short_answer", 0, none, "Paris", []⟩
        (.str "  paris ") =
      .ok (jsNormalize "  paris " == jsNormalize "Paris") ∧
    (jsNormalize "  paris " == jsNormalize "Paris") = true :=
  ⟨grader_short_answer_case_insensitive
      ⟨"q1", "Capital of France", "short_answer", 0, none, "Paris", []⟩
      "  paris " rfl (by decide), by decide⟩

/-- C6: for every multiple-choice or true-false question, grading a
nonempty string submission succeeds and is an exact, case-sensitive string
comparison with the correct-answer token; grading the value submitted by
selecting option `o` (which is the option identifier, not its display
text) is correct exactly when that identifier equals the token. -/
theorem grader_choice_exact_match (q : Question) (s : String)
    (hty : q.question_type = "multiple_choice" ∨ q.question_type = "true_false")
    (hne : s ≠ "") :
    gradeAnswer q (.str s) = .ok (s == q.correct_answer) ∧
    (∀ o : QuestionOption, o.id ≠ "" →
      (gradeAnswer q (.str (optionRadioValue o)) = .ok true ↔
        optionRadioValue o = q.correct_answer)) := by
  have key : ∀ t : String, t ≠ "" →
      gradeAnswer q (.str t) = .ok (t == q.correct_answer) := by
    intro t ht
    rcases hty with hty | hty <;>
      simp [gradeAnswer, isEmptyAnswer, jsStrictEqStr, hty, ht]
  refine ⟨key s hne, fun o ho => ?_⟩
  simp only [optionRadioValue]
  rw [key o.id ho]
  simp

/-- Instantiation at a concrete multiple-choice question whose correct
option identifier is submitted. -/
theorem grader_choice_exact_match_witness :
    gradeAnswer ⟨"q1", "Pick one", "multiple_choice", 0, some 2, "opt-2",
        [⟨"opt-1", "Red", 0⟩, ⟨"opt-2", "Blue", 1⟩]⟩ (.str "opt-2") =
      .ok ("opt-2" == "opt-2") :=
  (grader_choice_exact_match
    ⟨"q1", "Pick one", "multiple_choice", 0, some 2, "opt-2",
      [⟨"opt-1", "Red", 0⟩, ⟨"opt-2", "Blue", 1⟩]⟩
    "opt-2" (Or.inl rfl) (by decide)).1

/-- C8: a malformed multiple-choice question (no options, or a
correct-answer token matching no option identifier) grades every
submission the interface can produce (an option identifier, the empty
string, or an array value) as incorrect; grading a multiple-choice
question never throws; and the submission loop steps past such a question
to the remaining ones normally. -/
theorem malformed_choice_never_blocks (q : Question)
    (hty : q.question_type = "multiple_choice") (hm : malformedChoice q) :
    (∀ a : StudentAnswer,
      (a = .str "" ∨ (∃ o, o ∈ q.question_options ∧ a = .str o.id) ∨
        (∃ l, a = .list l)) →
      gradeAnswer q a = .ok false) ∧
    (∀ a : StudentAnswer, ∃ b : Bool, gradeAnswer q a = .ok b) ∧
    (∀ (answers : AnswersMap) (aid : String) (rest : List Question)
        (recs0 : List AnswerRecord) (s0 : Nat),
      submitLoopAux answers aid (q :: rest) recs0 s0 =
        submitLoopAux answers aid rest (recs0 ++ [recordFor answers aid q])
          (s0 + earnedPoints answers q)) := by
  have hok : ∀ a : StudentAnswer, gradeAnswer q a =
      .ok (if isEmptyAnswer a then false
        else jsStrictEqStr a q.correct_answer) := by
    intro a
    by_cases he : isEmptyAnswer a <;> simp [gradeAnswer, he, hty]
  refine ⟨?_, fun a => ⟨_, hok a⟩, ?_⟩
  · intro a ha
    rcases ha with rfl | ⟨o, ho, rfl⟩ | ⟨l, rfl⟩
    · simp [gradeAnswer, isEmptyAnswer]
    · rw [hok]
      rcases hm with hm | hm
      · rw [hm] at ho; simp at ho
      · have hne := hm o ho
        by_cases hid : o.id = ""
        · simp [isEmptyAnswer, hid]
        · simp [isEmptyAnswer, hid, jsStrictEqStr, hne]
    · rw [hok]
      by_cases hl : l.isEmpty <;> simp [isEmptyAnswer, hl, jsStrictEqStr]
  · intro answers aid rest recs0 s0
    have hc := hok (effectiveAnswer answers q.id)
    have hgo : gradeAnswerOk q (effectiveAnswer answers q.id) =
        (if isEmptyAnswer (effectiveAnswer answers q.id) then false
          else jsStrictEqStr (effectiveAnswer answers q.id) q.correct_answer) := by
      simp [gradeAnswerOk, hc]
    simp only [submitLoopAux]
    rw [hc]
    simp [recordFor, earnedPoints, hgo]

/-- Instantiation at a concrete malformed multiple-choice question whose
only option is submitted. -/
theorem malformed_choice_never_blocks_witness :
    gradeAnswer ⟨"q1", "Pick one", "multiple_choice", 0, some 3, "zzz",
        [⟨"opt-1", "Red", 0⟩]⟩ (.str "opt-1") = .ok false := by
  have hm : malformedChoice ⟨"q1", "Pick one", "multiple_choice", 0, some 3,
      "zzz", [⟨"opt-1", "Red", 0⟩]⟩ := by
    unfold malformedChoice
    right
    intro o ho
    simp at ho
    subst ho
    decide
  exact (malformed_choice_never_blocks _ rfl hm).1 (.str "opt-1")
    (Or.inr (Or.inl ⟨⟨"opt-1", "Red", 0⟩, by simp, rfl⟩))

/-- C1: whenever the submission completes without a logged error, the
single score update persists as the score exactly the sum of the points
earned over all answer rows written for the attempt, and persists as the
total points the sum of the (defaulted) point values of every question of
the quiz. -/
theorem score_eq_sum_points_earned (store : StoreOracle) (quizId userId : String)
    (questions : List Question) (answers : AnswersMap)
    (h : (handleSubmitQuiz store quizId userId questions answers).loggedError
          = none) :
    scoreUpdatesOf (handleSubmitQuiz store quizId userId questions answers) =
      [(((answerRecordsOf
            (handleSubmitQuiz store quizId userId questions answers)).map
          AnswerRecord.points_earned).sum,
        (questions.map pointsOf).sum)] := by
  have hcomp : AnswerRecord.points_earned ∘ recordFor answers store.attemptId =
      earnedPoints answers := rfl
  have hnone : (writeScorePair ∘ WriteOp.answerInsert ∘
      recordFor answers store.attemptId) = fun _ => (none : Option (Nat × Nat)) := rfl
  have hsome : (writeAnswerRow ∘ WriteOp.answerInsert ∘
      recordFor answers store.attemptId) =
      fun q => some (recordFor answers store.attemptId q) := rfl
  rw [handleSubmitQuiz_ok_eq store quizId userId questions answers h]
  simp [scoreUpdatesOf, answerRecordsOf, List.filterMap_append, List.filterMap_map,
    writeScorePair, writeAnswerRow, hnone, hsome, filterMap_none_fn,
    filterMap_some_fn, List.map_map, hcomp]

/-- Instantiation of the score round-trip at a one-question quiz answered
correctly. -/
theorem score_eq_sum_points_earned_witness :
    (handleSubmitQuiz ⟨"att-1", true, fun _ => true, true⟩ "quiz-1" "stu-1"
        [⟨"q1", "2+2=4", "true_false", 0, some 2, "true", []⟩]
        (fun qid => if qid = "q1" then some (.str "true") else none)).loggedError
      = none ∧
    scoreUpdatesOf (handleSubmitQuiz ⟨"att-1", true, fun _ => true, true⟩
        "quiz-1" "stu-1" [⟨"q1", "2+2=4", "true_false", 0, some 2, "true", []⟩]
        (fun qid => if qid = "q1" then some (.str "true") else none)) =
      [(((answerRecordsOf (handleSubmitQuiz ⟨"att-1", true, fun _ => true, true⟩
            "quiz-1" "stu-1" [⟨"q1", "2+2=4", "true_false", 0, some 2, "true", []⟩]
            (fun qid => if qid = "q1" then some (.str "true") else none))).map
          AnswerRecord.points_earned).sum,
        ([⟨"q1", "2+2=4", "true_false", 0, some 2, "true", []⟩].map pointsOf).sum)] :=
  ⟨by decide,
   score_eq_sum_points_earned ⟨"att-1", true, fun _ => true, true⟩ "quiz-1" "stu-1"
    [⟨"q1", "2+2=4", "true_false", 0, some 2, "true", []⟩]
    (fun qid => if qid = "q1" then some (.str "true") else none) (by decide)⟩

/-- C7: in a submission that completes without a logged error, every
answer row written pairs with a question of the quiz, carries the graded
verdict, and earns the (defaulted) point value of the question when
correct and zero otherwise; the point value defaults to 1 exactly when it
is unset, and a set nonzero value is taken as is. -/
theorem points_earned_rule (store : StoreOracle) (quizId userId : String)
    (questions : List Question) (answers : AnswersMap)
    (h : (handleSubmitQuiz store quizId userId questions answers).loggedError
          = none) :
    (∀ r ∈ answerRecordsOf (handleSubmitQuiz store quizId userId questions answers),
      ∃ q, q ∈ questions ∧ r.question_id = q.id ∧
        r.is_correct = gradeAnswerOk q (effectiveAnswer answers q.id) ∧
        r.points_earned = (if r.is_correct then pointsOf q else 0)) ∧
    (∀ q : Question, q.points = none → pointsOf q = 1) ∧
    (∀ (q : Question) (n : Nat), q.points = some n → n ≠ 0 → pointsOf q = n) := by
  refine ⟨?_, ?_, ?_⟩
  · intro r hr
    rw [handleSubmitQuiz_ok_eq store quizId userId questions answers h] at hr
    simp [answerRecordsOf, List.filterMap_append, filterMap_writeAnswerRow_map,
      writeAnswerRow] at hr
    obtain ⟨q, hq, hqr⟩ := hr
    subst hqr
    exact ⟨q, hq, rfl, rfl, rfl⟩
  · intro q hq
    simp [pointsOf, hq]
  · intro q n hq hn
    simp [pointsOf, hq, hn]

/-- Instantiation of the defaulting rule for the point value. -/
theorem points_earned_rule_witness :
    pointsOf ⟨"qa", "text", "true_false", 0, none, "true", []⟩ = 1 ∧
    pointsOf ⟨"qb", "text", "true_false", 0, some 5, "true", []⟩ = 5 :=
  ⟨(points_earned_rule ⟨"att-1", true, fun _ => true, true⟩ "quiz-1" "stu-1" []
      (fun _ => none) (by decide)).2.1
      ⟨"qa", "text", "true_false", 0, none, "true", []⟩ rfl,
   (points_earned_rule ⟨"att-1", true, fun _ => true, true⟩ "quiz-1" "stu-1" []
      (fun _ => none) (by decide)).2.2
      ⟨"qb", "text", "true_false", 0, some 5, "true", []⟩ 5 rfl (by decide)⟩

/-- C10: in a submission that completes without a logged error, the
persisted score never exceeds the persisted total points, and the
persisted total points are the summed (defaulted) point values of all
questions, independent of which questions were answered. -/
theorem score_le_total_points (store : StoreOracle) (quizId userId : String)
    (questions : List Question) (answers : AnswersMap)
    (h : (handleSubmitQuiz store quizId userId questions answers).loggedError
          = none) :
    ∀ p ∈ scoreUpdatesOf (handleSubmitQuiz store quizId userId questions answers),
      p.1 ≤ p.2 ∧ p.2 = (questions.map pointsOf).sum := by
  intro p hp
  rw [handleSubmitQuiz_ok_eq store quizId userId questions answers h] at hp
  simp [scoreUpdatesOf, List.filterMap_append, filterMap_writeScorePair_map,
    writeScorePair] at hp
  subst hp
  exact ⟨sum_earned_le_sum_points answers questions, rfl⟩

/-- Instantiation of the score bound at a one-question quiz answered
correctly. -/
theorem score_le_total_points_witness :
    ((2, 2) : Nat × Nat).1 ≤ ((2, 2) : Nat × Nat).2 ∧
    ((2, 2) : Nat × Nat).2 =
      ([⟨"q1", "2+2=4", "true_false", 0, some 2, "true", []⟩].map pointsOf).sum :=
  score_le_total_points ⟨"att-1", true, fun _ => true, true⟩ "quiz-1" "stu-1"
    [⟨"q1", "2+2=4", "true_false", 0, some 2, "true", []⟩]
    (fun qid => if qid = "q1" then some (.str "true") else none) (by decide)
    (2, 2) (by decide)

/-- C9: the Previous and Next button handlers clamp the question index to
the valid range; Previous at index 0 stays at 0, and Next at the last
index stays at the last index. -/
theorem navigation_clamped (n i : Int) (h0 : 0 ≤ i) (h1 : i ≤ n - 1) :
    (0 ≤ prevQuestionClick i ∧ prevQuestionClick i ≤ n - 1) ∧
    (0 ≤ nextQuestionClick n i ∧ nextQuestionClick n i ≤ n - 1) ∧
    prevQuestionClick 0 = 0 ∧
    nextQuestionClick n (n - 1) = n - 1 := by
  unfold prevQuestionClick nextQuestionClick
  omega

/-- Instantiation of the clamping theorem for a three-question quiz at
index 0. -/
theorem navigation_clamped_witness :
    (0 ≤ prevQuestionClick 0 ∧ prevQuestionClick 0 ≤ 3 - 1) ∧
    (0 ≤ nextQuestionClick 3 0 ∧ nextQuestionClick 3 0 ≤ 3 - 1) ∧
    prevQuestionClick 0 = 0 ∧
    nextQuestionClick 3 (3 - 1) = 3 - 1 :=
  navigation_clamped 3 0 (by decide) (by decide)

/-- C2 (the code lacks the claimed guard): the timer does fire the
automatic submission exactly once (a tick at an expired timer does
nothing), but the submission function contains no single-use submission
guard, every run of it inserts one attempt row, and a click on the
never-disabled dialog Submit action after the automatic timeout
submission therefore leaves two attempt rows for one session run. -/
theorem timer_race_double_attempt_insert :
    (runSession ⟨1, false, 0⟩
      [SessionEvent.tick, SessionEvent.dialogSubmitClick]).attemptRows = 2 ∧
    (∀ s : SessionState,
      (sessionStep s SessionEvent.dialogSubmitClick).attemptRows
        = s.attemptRows + 1) ∧
    (∀ (b : Bool) (k : Nat), sessionStep ⟨0, b, k⟩ SessionEvent.tick = ⟨0, b, k⟩) :=
  ⟨by decide, fun s => rfl, fun b k => rfl⟩

/-- C3 counterexample: a run on which the store rejects the first answer
insert, yet the submission performs every remaining write (the second
answer insert and the score update follow the failing write), logs
nothing, and reaches the success navigation; no error is surfaced. -/
theorem answer_insert_failure_not_aborting :
    (StoreOracle.mk "att-1" true (fun i => decide (i ≠ 0)) true).answerInsertOk 0
      = false ∧
    handleSubmitQuiz (StoreOracle.mk "att-1" true (fun i => decide (i ≠ 0)) true)
        "quiz-1" "stu-1"
        [⟨"q1", "2+2=4", "true_false", 0, none, "true", []⟩,
         ⟨"q2", "Sky is blue", "true_false", 1, none, "true", []⟩]
        (fun _ => none) =
      { writes := [WriteOp.attemptInsert "quiz-1" "stu-1" "completed",
                   WriteOp.answerInsert ⟨"att-1", "q1", "", false, 0⟩,
                   WriteOp.answerInsert ⟨"att-1", "q2", "", false, 0⟩,
                   WriteOp.scoreUpdate 0 2],
        loggedError := none, navigated := true } :=
  ⟨by decide, by decide⟩

/-- C3 as the code actually behaves: only a failed attempt insert stops
the submission, with the thrown error caught and logged inside the
function rather than surfaced; and with the attempt insert succeeding,
the result is entirely independent of whether the answer inserts or the
score update fail at the store, because their results are never read. -/
theorem submit_failure_semantics (store store2 : StoreOracle)
    (quizId userId : String) (questions : List Question) (answers : AnswersMap) :
    (store.attemptInsertOk = false →
      handleSubmitQuiz store quizId userId questions answers =
        { writes := [WriteOp.attemptInsert quizId userId "completed"],
          loggedError := some "Failed to create attempt", navigated := false }) ∧
    (store.attemptInsertOk = true → store2.attemptInsertOk = true →
      store2.attemptId = store.attemptId →
      handleSubmitQuiz store2 quizId userId questions answers =
        handleSubmitQuiz store quizId userId questions answers) := by
  constructor
  · intro hfail
    simp [handleSubmitQuiz, hfail]
  · intro h1 h2 h3
    simp [handleSubmitQuiz, h1, h2, h3]

/-- Instantiation of the failure-semantics theorem: a failed attempt
insert, and independence of the result from answer-insert and update
failures. -/
theorem submit_failure_semantics_witness :
    handleSubmitQuiz (StoreOracle.mk "att-1" false (fun _ => true) true)
        "quiz-1" "stu-1" [] (fun _ => none) =
      { writes := [WriteOp.attemptInsert "quiz-1" "stu-1" "completed"],
        loggedError := some "Failed to create attempt", navigated := false } ∧
    handleSubmitQuiz (StoreOracle.mk "att-1" true (fun _ => false) false)
        "quiz-1" "stu-1" [] (fun _ => none) =
      handleSubmitQuiz (StoreOracle.mk "att-1" true (fun _ => true) true)
        "quiz-1" "stu-1" [] (fun _ => none) :=
  ⟨(submit_failure_semantics (StoreOracle.mk "att-1" false (fun _ => true) true)
      (StoreOracle.mk "att-1" false (fun _ => true) true)
      "quiz-1" "stu-1" [] (fun _ => none)).1 rfl,
   (submit_failure_semantics (StoreOracle.mk "att-1" true (fun _ => true) true)
      (StoreOracle.mk "att-1" true (fun _ => false) false)
      "quiz-1" "stu-1" [] (fun _ => none)).2 rfl rfl rfl⟩

end QuizMaster
